import Mathlib

/-!
Shallow embedding of the census ACS MCP server's Location Resolver and
Metric Ranking Engine (src/dist/tools/lookup.js and the ranking module),
together with proofs of the specification claims.

The DuckDB tables are modelled as in-memory lists of rows; each SQL query
of the source is translated clause by clause (WHERE filters become list
filters, GROUP BY becomes key-grouping, ORDER BY becomes a deterministic
insertion sort by the same keys, LIMIT becomes `List.take`).
-/

namespace Census

/-- Lexicographic comparison of char lists by code point; models the default
binary collation DuckDB uses for `ORDER BY` on strings. -/
def charListLe : List Char → List Char → Bool
  | [], _ => true
  | _ :: _, [] => false
  | a :: as, b :: bs =>
    if a.toNat < b.toNat then true
    else if b.toNat < a.toNat then false
    else charListLe as bs

/-- String comparison used for `ORDER BY name`. -/
def strLe (a b : String) : Bool := charListLe a.data b.data

/-- Lowercasing for `ILIKE` (case-insensitive match). -/
def lowerStr (s : String) : String := ⟨s.data.map Char.toLower⟩

/-- Does `hay` begin with `p`? Models `LIKE 'p%'`. -/
def listBeginsWith [DecidableEq α] : List α → List α → Bool
  | _, [] => true
  | [], _ :: _ => false
  | a :: as, b :: bs => decide (a = b) && listBeginsWith as bs

/-- Does `hay` contain `needle` as a contiguous run? Models `LIKE '%needle%'`. -/
def listHasInfix [DecidableEq α] : List α → List α → Bool
  | [], needle => needle.isEmpty
  | a :: t, needle => listBeginsWith (a :: t) needle || listHasInfix t needle

/-- String prefix test, models `geo_id LIKE code || '%'`. -/
def startsWithStr (s p : String) : Bool := listBeginsWith s.data p.data

/-- String containment test, models `LIKE '%' || needle || '%'`. -/
def containsStr (hay needle : String) : Bool := listHasInfix hay.data needle.data

/-- Whitespace predicate for `String.prototype.trim`. -/
def isWS (c : Char) : Bool := decide (c = ' ') || decide (c = '\t') || decide (c = '\n') || decide (c = '\r')

/-- Models JavaScript `input.trim()`. -/
def trimStr (s : String) : String :=
  ⟨((s.data.dropWhile isWS).reverse.dropWhile isWS).reverse⟩

/-- The population-group segment of a geographic key: `SUBSTRING(geo_id, 4, 4)`. -/
def groupSeg (s : String) : String := ⟨(s.data.drop 3).take 4⟩

/-- Source `getSummaryLevel`: `geoId.substring(0, 3)`. -/
def getSummaryLevel (s : String) : String := ⟨s.data.take 3⟩

/-- Models JavaScript `parentGeoId.slice(-2)`. -/
def lastTwo (s : String) : String := ⟨(s.data.reverse.take 2).reverse⟩

/-- Models `title.split(' ')[0] || 'UNKNOWN'`. -/
def firstWord (s : String) : String :=
  let w : List Char := s.data.takeWhile (fun c => decide (c ≠ ' '))
  if w.isEmpty then "UNKNOWN" else ⟨w⟩

/-- Models the regex test `/^\d{5}$/`. -/
def isFiveDigits (s : String) : Bool :=
  decide (s.data.length = 5) && s.data.all Char.isDigit

/-- Models the regex test `/^\d/`. -/
def firstIsDigit (s : String) : Bool :=
  match s.data with
  | [] => false
  | c :: _ => c.isDigit

/-- Keep the first occurrence of every element, dropping later duplicates;
models `SELECT DISTINCT` with a deterministic output order. -/
def dedupFirst [DecidableEq α] : List α → List α
  | [] => []
  | a :: as => a :: (dedupFirst as).filter (fun x => decide (x ≠ a))

/-- A row of `json_db.tiger_geometries`. The polygon boundary is modelled as
the set (list) of points it contains, so `ST_Contains(geom, pt)` becomes list
membership. -/
structure TigerRow where
  geo_id : String
  name : String
  geom : List (Rat × Rat)
deriving DecidableEq

/-- A row of `pct_db.acs_with_percentiles`. -/
structure ObsRow where
  uid : String
  geo_id : String
  estimate : Rat
  summary_level : String
  state_fips : String
  national_percentile : Rat
deriving DecidableEq

/-- A row of `pct_db.table_metadata`. -/
structure MetaRow where
  unique_id : String
  table_id : String
  title : String
  label : String
deriving DecidableEq

/-- A row of `json_db.geo_lookup`. -/
structure GeoLookupRow where
  geo_id : String
  title : String
  universeCol : String
  labels_data : String
deriving DecidableEq

/-- The attached read-only DuckDB databases. -/
structure DB where
  tiger : List TigerRow
  acs : List ObsRow
  table_metadata : List MetaRow
  geo_lookup : List GeoLookupRow

/-- Source `SUMMARY_LEVELS` map (code to name). -/
def SUMMARY_LEVELS (code : String) : Option String :=
  if code = "040" then some "state"
  else if code = "050" then some "county"
  else if code = "140" then some "tract"
  else if code = "150" then some "block_group"
  else if code = "310" then some "metro"
  else if code = "860" then some "zip"
  else none

/-- Source `SUMMARY_LEVEL_NAMES` map (name to code). -/
def SUMMARY_LEVEL_NAMES (nm : String) : Option String :=
  if nm = "state" then some "040"
  else if nm = "county" then some "050"
  else if nm = "tract" then some "140"
  else if nm = "block_group" then some "150"
  else if nm = "metro" then some "310"
  else if nm = "zip" then some "860"
  else none

/-- Models `SUMMARY_LEVEL_NAMES[summaryLevel] || summaryLevel`. -/
def levelCodeOf (s : String) : String := (SUMMARY_LEVEL_NAMES s).getD s

/-- The `name ILIKE '%' || ? || '%'` predicate of the name-search queries. -/
def nameMatches (q : String) (r : TigerRow) : Bool :=
  containsStr (lowerStr r.name) (lowerStr q)

/-- Optional summary-level filter `geo_id LIKE levelCode || '%'` shared by
`searchLocations` and `resolveLocation`. -/
def levelOk (lvl : Option String) (g : String) : Bool :=
  match lvl with
  | some l => startsWithStr g (levelCodeOf l)
  | none => true

/-- The shared WHERE clause of the name-search queries in `searchLocations`
and step 3 of `resolveLocation`. -/
def searchFilter (db : DB) (trimmed : String) (lvl : Option String) : List TigerRow :=
  db.tiger.filter (fun r => nameMatches trimmed r && levelOk lvl r.geo_id)

/-- The 7-way CASE level priority of `searchLocations`' ORDER BY. -/
def searchCase (g : String) : Nat :=
  if startsWithStr g "040" then 1
  else if startsWithStr g "310" then 2
  else if startsWithStr g "050" then 3
  else if startsWithStr g "860" then 4
  else if startsWithStr g "140" then 5
  else if startsWithStr g "150" then 6
  else 7

/-- The 4-way CASE level priority of `resolveLocation`'s ORDER BY. -/
def resolveCase (g : String) : Nat :=
  if startsWithStr g "040" then 1
  else if startsWithStr g "310" then 2
  else if startsWithStr g "050" then 3
  else 4

/-- The CASE specificity order of `lookupLocation`'s ORDER BY. -/
def lookupCase (g : String) : Nat :=
  if startsWithStr g "150" then 1
  else if startsWithStr g "140" then 2
  else if startsWithStr g "860" then 3
  else if startsWithStr g "050" then 4
  else if startsWithStr g "310" then 5
  else if startsWithStr g "040" then 6
  else 7

/-- `ORDER BY CASE ..., LENGTH(name), name` of `searchLocations`. -/
def searchLeB (a b : TigerRow) : Bool :=
  decide (searchCase a.geo_id < searchCase b.geo_id) ||
  (decide (searchCase a.geo_id = searchCase b.geo_id) &&
    (decide (a.name.length < b.name.length) ||
     (decide (a.name.length = b.name.length) && strLe a.name b.name)))

/-- `ORDER BY CASE ..., LENGTH(name)` of `resolveLocation` step 3. -/
def resolveLeB (a b : TigerRow) : Bool :=
  decide (resolveCase a.geo_id < resolveCase b.geo_id) ||
  (decide (resolveCase a.geo_id = resolveCase b.geo_id) &&
    decide (a.name.length ≤ b.name.length))

/-- Strict version of the `searchLocations` ordering: a is ranked strictly
before b. -/
def searchBeforeB (a b : TigerRow) : Bool := searchLeB a b && !searchLeB b a

/-- Strict version of the `resolveLocation` step-3 ordering. -/
def resolveBeforeB (a b : TigerRow) : Bool := resolveLeB a b && !resolveLeB b a

/-- The `searchLocations` ordering as a decidable relation for sorting. -/
def searchRel (a b : TigerRow) : Prop := searchLeB a b = true

instance : DecidableRel searchRel := fun a b => instDecidableEqBool (searchLeB a b) true

/-- The `resolveLocation` step-3 ordering as a decidable relation. -/
def resolveRel (a b : TigerRow) : Prop := resolveLeB a b = true

instance : DecidableRel resolveRel := fun a b => instDecidableEqBool (resolveLeB a b) true

/-- `ORDER BY name` as a decidable relation. -/
def nameLeRel (a b : TigerRow) : Prop := strLe a.name b.name = true

instance : DecidableRel nameLeRel := fun a b => instDecidableEqBool (strLe a.name b.name) true

/-- The `lookupLocation` specificity ordering as a decidable relation. -/
def lookupRel (a b : TigerRow) : Prop := lookupCase a.geo_id ≤ lookupCase b.geo_id

instance : DecidableRel lookupRel := fun a b =>
  Nat.decLe (lookupCase a.geo_id) (lookupCase b.geo_id)

/-- One result row of `searchLocations`. -/
structure SearchRowOut where
  geo_id : String
  name : String
  summary_level : String
  summary_level_name : String
deriving DecidableEq

/-- The record returned by `searchLocations`. -/
structure SearchResult where
  query : String
  results : List SearchRowOut
  total_matches : Nat
deriving DecidableEq

/-- Source `searchLocations(searchQuery, summaryLevel, limit)`. -/
def searchLocations (db : DB) (searchQuery : String) (summaryLevel : Option String)
    (limit : Nat) : SearchResult :=
  let trimmed := trimStr searchQuery
  let sorted := (List.insertionSort searchRel (searchFilter db trimmed summaryLevel)).take limit
  { query := searchQuery
  , results := sorted.map (fun r =>
      let level := getSummaryLevel r.geo_id
      { geo_id := r.geo_id
      , name := r.name
      , summary_level := level
      , summary_level_name := (SUMMARY_LEVELS level).getD "unknown" })
  , total_matches := (searchFilter db trimmed summaryLevel).length }

/-- Two-element tail test of the canonical-key regex: `US` followed by one or
more digits, to the end of the string. -/
def canonTail (rest : List Char) : Bool :=
  match rest with
  | u :: s9 :: ds => decide (u = 'U') && decide (s9 = 'S') && !ds.isEmpty && ds.all Char.isDigit
  | _ => false

/-- Executable semantics of the DuckDB regex `'^[0-9]{3}0+US[0-9]+$'` used by
`listGeographies` as its canonical filter (with backtracking over the length
of the `0+` run). -/
def canonRegex (s : String) : Bool :=
  match s.data with
  | a :: b :: c :: rest =>
    a.isDigit && b.isDigit && c.isDigit &&
    (List.range rest.length).any (fun i =>
      (rest.take (i + 1)).all (fun ch => decide (ch = '0')) && canonTail (rest.drop (i + 1)))
  | _ => false

/-- A geographic key of the shape documented by the data model:
3-digit level code, 4-character group segment, the literal `US`, then a
non-empty run of digits. -/
def wellFormedKey (s : String) : Bool :=
  match s.data with
  | a :: b :: c :: _ :: _ :: _ :: _ :: u :: s9 :: ds =>
    a.isDigit && b.isDigit && c.isDigit &&
    decide (u = 'U') && decide (s9 = 'S') && !ds.isEmpty && ds.all Char.isDigit
  | _ => false

/-- Parent filter of `listGeographies`: `geo_id LIKE '%US' || parentStateFips || '%'`. -/
def parentOk (parent : Option String) (g : String) : Bool :=
  match parent with
  | some p => containsStr g ("US" ++ lastTwo p)
  | none => true

/-- The WHERE clause shared by the row query and the count query of
`listGeographies`. -/
def listGeogFilter (db : DB) (levelCode : String) (parent : Option String) : List TigerRow :=
  db.tiger.filter (fun r =>
    startsWithStr r.geo_id levelCode && parentOk parent r.geo_id && canonRegex r.geo_id)

/-- One result row of `listGeographies`. -/
structure GeoRowOut where
  geo_id : String
  name : String
deriving DecidableEq

/-- The record returned by `listGeographies`. -/
structure GeoListResult where
  summary_level : String
  summary_level_name : String
  parent_geo_id : Option String
  results : List GeoRowOut
  total_count : Nat
deriving DecidableEq

/-- Source `listGeographies(summaryLevel, parentGeoId, limit)`. -/
def listGeographies (db : DB) (summaryLevel : String) (parentGeoId : Option String)
    (limit : Nat) : GeoListResult :=
  let levelCode := levelCodeOf summaryLevel
  let levelName := (SUMMARY_LEVELS levelCode).getD summaryLevel
  let sorted := (List.insertionSort nameLeRel (listGeogFilter db levelCode parentGeoId)).take limit
  { summary_level := levelCode
  , summary_level_name := levelName
  , parent_geo_id := parentGeoId
  , results := sorted.map (fun r => { geo_id := r.geo_id, name := r.name })
  , total_count := (listGeogFilter db levelCode parentGeoId).length }

/-- Exact-key lookup `WHERE geo_id = ?` against the geographic catalog. -/
def exactRows (db : DB) (g : String) : List TigerRow :=
  db.tiger.filter (fun r => decide (r.geo_id = g))

/-- Source `resolveLocation(input, summaryLevel)`: direct key, then ZIP
shorthand, then name search, first success wins. -/
def resolveLocation (db : DB) (input : String) (summaryLevel : Option String) :
    Option (String × String) :=
  let trimmed := trimStr input
  let step1 : Option (String × String) :=
    if firstIsDigit trimmed && containsStr trimmed "US" then
      match exactRows db trimmed with
      | r :: _ => some (r.geo_id, r.name)
      | [] => none
    else none
  match step1 with
  | some x => some x
  | none =>
    let step2 : Option (String × String) :=
      if isFiveDigits trimmed then
        let geoId := "860Z200US" ++ trimmed
        match exactRows db geoId with
        | _ :: _ => some (geoId, trimmed)
        | [] => none
      else none
    match step2 with
    | some x => some x
    | none =>
      match List.insertionSort resolveRel (searchFilter db trimmed summaryLevel) with
      | r :: _ => some (r.geo_id, r.name)
      | [] => none

/-- One data row attached by `lookupLocation`. -/
structure LookupDataRow where
  table_id : String
  title : String
  universeCol : String
  labels_data : String
deriving DecidableEq

/-- The record returned by `lookupLocation` on a hit. -/
structure LookupResult where
  geo_id : String
  name : String
  summary_level : String
  data : List LookupDataRow
deriving DecidableEq

/-- The `ST_Contains(geom, ST_Point(longitude, latitude))` query of
`lookupLocation`: every catalog area whose boundary contains the point. -/
def containingRows (db : DB) (latitude longitude : Rat) : List TigerRow :=
  db.tiger.filter (fun r => decide ((longitude, latitude) ∈ r.geom))

/-- The optional table filter of `lookupLocation`:
`title IN (SELECT DISTINCT title FROM table_metadata WHERE table_id IN tables)`,
applied only when a non-empty table list is given. -/
def tableFilterOk (db : DB) (tables : Option (List String)) (title : String) : Bool :=
  match tables with
  | some ts =>
    if ts.isEmpty then true
    else db.table_metadata.any (fun m => ts.contains m.table_id && decide (m.title = title))
  | none => true

/-- The WHERE clause of `lookupLocation`'s data query for one geographic key. -/
def filteredLookupRows (db : DB) (g : String) (tables : Option (List String)) :
    List GeoLookupRow :=
  db.geo_lookup.filter (fun r => decide (r.geo_id = g) && tableFilterOk db tables r.title)

/-- The `SELECT DISTINCT title, universe, labels_data ... LIMIT 100` data query
of `lookupLocation`, including the mapping that extracts `table_id` from the
title's first word. -/
def lookupDataOf (db : DB) (g : String) (tables : Option (List String)) :
    List LookupDataRow :=
  ((dedupFirst ((filteredLookupRows db g tables).map
      (fun r => (r.title, r.universeCol, r.labels_data)))).take 100).map
    (fun t => { table_id := firstWord t.1, title := t.1, universeCol := t.2.1, labels_data := t.2.2 })

/-- Source `lookupLocation(latitude, longitude, tables)`. -/
def lookupLocation (db : DB) (latitude longitude : Rat) (tables : Option (List String)) :
    Option LookupResult :=
  match List.insertionSort lookupRel (containingRows db latitude longitude) with
  | [] => none
  | geo :: _ =>
    some { geo_id := geo.geo_id
         , name := geo.name
         , summary_level := getSummaryLevel geo.geo_id
         , data := lookupDataOf db geo.geo_id tables }

/-- A ranking request, with `metric_id` and `denominator_id` already
normalised to lists as the source does on entry. -/
structure RankReq where
  metric_id : List String
  denominator_id : Option (List String)
  order : String
  percentile_min : Rat
  percentile_max : Rat
  summary_level : Option String
  state_fips : Option String
  population_group : Option String
  min_population : Rat
  limit : Nat

/-- One result row of `rankAreasByMetric`. -/
structure RankRow where
  geo_id : String
  name : String
  value : Rat
  unit : String
  national_percentile : Option Rat
deriving DecidableEq

/-- The record returned by `rankAreasByMetric`. -/
structure RankResult where
  metric : String
  results : List RankRow
  total_matches : Nat
deriving DecidableEq

/-- `WHERE uid IN (ids)` against the observation table. -/
def obsWithUidIn (db : DB) (ids : List String) : List ObsRow :=
  db.acs.filter (fun r => ids.contains r.uid)

/-- The distinct geographic keys of a row set, in first-appearance order;
models the groups produced by `GROUP BY geo_id`. -/
def gKeys (rows : List ObsRow) : List String :=
  dedupFirst (rows.map (fun r => r.geo_id))

/-- `SUM(estimate)` of one `GROUP BY geo_id` group. -/
def gSum (rows : List ObsRow) (k : String) : Rat :=
  ((rows.filter (fun r => decide (r.geo_id = k))).map (fun r => r.estimate)).sum

/-- `COALESCE(t.name, geo_id)` through the LEFT JOIN with the geographic
catalog: the catalog name when the key exists there, the raw key otherwise. -/
def tigerName (db : DB) (g : String) : String :=
  match db.tiger.filter (fun r => decide (r.geo_id = g)) with
  | r :: _ => r.name
  | [] => g

/-- `buildPopulationGroupFilter`: no filter when the group is absent (falsy),
otherwise `SUBSTRING(geo_id, 4, 4) = population_group`. -/
def popGroupOk (pg : Option String) (g : String) : Bool :=
  match pg with
  | none => true
  | some p => decide (groupSeg g = p)

/-- Optional `geo_id LIKE summary_level || '%'` filter of the rate and sum
branches. -/
def likeLevelOk (sl : Option String) (g : String) : Bool :=
  match sl with
  | some l => startsWithStr g l
  | none => true

/-- Optional `geo_id LIKE '%US' || state_fips || '%'` filter of the rate and
sum branches. -/
def likeStateOk (sf : Option String) (g : String) : Bool :=
  match sf with
  | some f => containsStr g ("US" ++ f)
  | none => true

/-- Round half-up to an integer: the floor of `x + 1/2`, computed on the
numerator and denominator so that it evaluates in the kernel. -/
def rnd (x : Rat) : Int := Int.fdiv (2 * x.num + (x.den : Int)) (2 * (x.den : Int))

/-- DuckDB `ROUND(x, 2)`. -/
def round2 (x : Rat) : Rat := (rnd (x * 100) : Rat) / 100

/-- `ORDER BY value DESC/ASC` for ranked rows. -/
def rankValRel (desc : Bool) (a b : RankRow) : Prop :=
  (if desc then decide (b.value ≤ a.value) else decide (a.value ≤ b.value)) = true

instance : ∀ desc, DecidableRel (rankValRel desc) := fun desc a b =>
  instDecidableEqBool (if desc then decide (b.value ≤ a.value) else decide (a.value ≤ b.value)) true

/-- `ORDER BY national_percentile DESC/ASC` for the direct branch. -/
def obsPctRel (desc : Bool) (a b : ObsRow) : Prop :=
  (if desc then decide (b.national_percentile ≤ a.national_percentile)
   else decide (a.national_percentile ≤ b.national_percentile)) = true

instance : ∀ desc, DecidableRel (obsPctRel desc) := fun desc a b =>
  instDecidableEqBool
    (if desc then decide (b.national_percentile ≤ a.national_percentile)
     else decide (a.national_percentile ≤ b.national_percentile)) true

/-- The joined, filtered key list of the rate branch: keys of the numerator
aggregate that also appear in the denominator aggregate (inner join), with
`denom_total >= min_population` and the group/level/state filters. Both the
row query and the count query of the source repeat exactly this chain. -/
def rateJoinKeys (db : DB) (numIds denomIds : List String) (minPop : Rat)
    (pg sl sf : Option String) : List String :=
  let nrows := obsWithUidIn db numIds
  let drows := obsWithUidIn db denomIds
  (gKeys nrows).filter (fun k =>
    (gKeys drows).contains k &&
    decide (minPop ≤ gSum drows k) &&
    popGroupOk pg k && likeLevelOk sl k && likeStateOk sf k)

/-- One row of the rate branch:
`ROUND(n.num_total * 100.0 / d.denom_total, 2)` with `unit = 'percent'`. -/
def rateRow (db : DB) (numIds denomIds : List String) (k : String) : RankRow :=
  { geo_id := k
  , name := tigerName db k
  , value := round2 (gSum (obsWithUidIn db numIds) k * 100 / gSum (obsWithUidIn db denomIds) k)
  , unit := "percent"
  , national_percentile := none }

/-- The rate branch of `rankAreasByMetric` (denominator present): ranked rows
and the separately computed total match count. -/
def rateBranch (db : DB) (numIds denomIds : List String) (orderStr : String)
    (minPop : Rat) (pg sl sf : Option String) (limit : Nat) : List RankRow × Nat :=
  let keys := rateJoinKeys db numIds denomIds minPop pg sl sf
  let rows := keys.map (rateRow db numIds denomIds)
  ((List.insertionSort (rankValRel (orderStr = "desc")) rows).take limit,
   (rateJoinKeys db numIds denomIds minPop pg sl sf).length)

/-- The WHERE clause of the compound-sum branch, applied before grouping. -/
def sumFilteredRows (db : DB) (ids : List String) (pg sl sf : Option String) : List ObsRow :=
  (obsWithUidIn db ids).filter (fun r =>
    popGroupOk pg r.geo_id && likeLevelOk sl r.geo_id && likeStateOk sf r.geo_id)

/-- The compound-sum branch of `rankAreasByMetric` (no denominator, several
metric ids): summed rows and `COUNT(DISTINCT geo_id)` as total. -/
def sumBranch (db : DB) (ids : List String) (orderStr : String)
    (pg sl sf : Option String) (limit : Nat) : List RankRow × Nat :=
  let rows0 := sumFilteredRows db ids pg sl sf
  let rows := (gKeys rows0).map (fun k =>
    { geo_id := k
    , name := tigerName db k
    , value := gSum rows0 k
    , unit := "count"
    , national_percentile := none : RankRow })
  ((List.insertionSort (rankValRel (orderStr = "desc")) rows).take limit,
   (dedupFirst (rows0.map (fun r => r.geo_id))).length)

/-- The WHERE clause of the direct (single-metric) branch: one uid, the
inclusive percentile band, the group filter, and exact equality on
`summary_level` and `state_fips`. -/
def singleFilteredRows (db : DB) (m : String) (pmin pmax : Rat)
    (pg sl sf : Option String) : List ObsRow :=
  db.acs.filter (fun r =>
    decide (r.uid = m) &&
    decide (pmin ≤ r.national_percentile) && decide (r.national_percentile ≤ pmax) &&
    popGroupOk pg r.geo_id &&
    (match sl with | some l => decide (r.summary_level = l) | none => true) &&
    (match sf with | some f => decide (r.state_fips = f) | none => true))

/-- The direct branch of `rankAreasByMetric` (single metric, no denominator):
rows sorted by national percentile, which is carried through. -/
def singleBranch (db : DB) (m : String) (orderStr : String) (pmin pmax : Rat)
    (pg sl sf : Option String) (limit : Nat) : List RankRow × Nat :=
  let rows0 := singleFilteredRows db m pmin pmax pg sl sf
  let sorted := (List.insertionSort (obsPctRel (orderStr = "desc")) rows0).take limit
  (sorted.map (fun r =>
    { geo_id := r.geo_id
    , name := tigerName db r.geo_id
    , value := r.estimate
    , unit := "count"
    , national_percentile := some r.national_percentile }),
   (singleFilteredRows db m pmin pmax pg sl sf).length)

/-- The metric label: the first metric's `title: label` when it exists, the
raw id otherwise, replaced by a synthesised `Sum of N metrics (...)` label for
compound requests. -/
def metricLabelOf (db : DB) (metricIds : List String) (isCompound : Bool) : String :=
  let firstMetricId := metricIds.headD ""
  let base :=
    match db.table_metadata.filter (fun r => decide (r.unique_id = firstMetricId)) with
    | r :: _ => r.title ++ ": " ++ r.label
    | [] => firstMetricId
  if isCompound then
    "Sum of " ++ toString metricIds.length ++ " metrics (" ++
      String.intercalate ", " (metricIds.take 3) ++
      (if metricIds.length > 3 then "..." else "") ++ ")"
  else base

/-- Source `rankAreasByMetric(params)`: dispatch to the rate, compound-sum or
direct branch. -/
def rankAreasByMetric (db : DB) (req : RankReq) : RankResult :=
  let metricIds := req.metric_id
  let isCompound := decide (metricIds.length > 1) ||
    (match req.denominator_id with | some d => decide (d.length > 1) | none => false)
  let label := metricLabelOf db metricIds isCompound
  match req.denominator_id with
  | some dIds =>
    let out := rateBranch db metricIds dIds req.order req.min_population
      req.population_group req.summary_level req.state_fips req.limit
    ⟨label, out.1, out.2⟩
  | none =>
    if metricIds.length > 1 then
      let out := sumBranch db metricIds req.order req.population_group
        req.summary_level req.state_fips req.limit
      ⟨label, out.1, out.2⟩
    else
      match metricIds with
      | [] => ⟨label, [], 0⟩
      | m :: _ =>
        let out := singleBranch db m req.order req.percentile_min req.percentile_max
          req.population_group req.summary_level req.state_fips req.limit
        ⟨label, out.1, out.2⟩

/-- The sum of estimates over the given metric ids for one geographic key,
stated directly on the observation table (the claims' `numeratorSum` and
`denominatorSum`). -/
def sumEst (db : DB) (ids : List String) (k : String) : Rat :=
  ((db.acs.filter (fun r => ids.contains r.uid && decide (r.geo_id = k))).map
    (fun r => r.estimate)).sum

/-- The keys that satisfy a ranking request's filters with no sort or limit
applied, per branch, exactly as the source's separate count queries compute
them. -/
def rankMatchingKeys (db : DB) (req : RankReq) : List String :=
  match req.denominator_id with
  | some dIds =>
    rateJoinKeys db req.metric_id dIds req.min_population
      req.population_group req.summary_level req.state_fips
  | none =>
    if req.metric_id.length > 1 then
      dedupFirst ((sumFilteredRows db req.metric_id req.population_group
        req.summary_level req.state_fips).map (fun r => r.geo_id))
    else
      match req.metric_id with
      | [] => []
      | m :: _ =>
        (singleFilteredRows db m req.percentile_min req.percentile_max
          req.population_group req.summary_level req.state_fips).map (fun r => r.geo_id)

/-- Modelled from the spec: the direct (single-metric, no-denominator) branch
with the percentile-band filter removed entirely — the comparison target of
the claim that a `[0, 1]` band filters nothing. -/
def singleRowsNoBand (db : DB) (m : String) (pg sl sf : Option String) : List ObsRow :=
  db.acs.filter (fun r =>
    decide (r.uid = m) &&
    popGroupOk pg r.geo_id &&
    (match sl with | some l => decide (r.summary_level = l) | none => true) &&
    (match sf with | some f => decide (r.state_fips = f) | none => true))

/-- Modelled from the spec: `rankAreasByMetric` restricted to the direct
branch with no percentile-band filter at all. -/
def rankSingleNoBand (db : DB) (req : RankReq) : RankResult :=
  let label := metricLabelOf db req.metric_id false
  match req.metric_id with
  | [] => ⟨label, [], 0⟩
  | m :: _ =>
    let rows0 := singleRowsNoBand db m req.population_group req.summary_level req.state_fips
    let sorted := (List.insertionSort (obsPctRel (req.order = "desc")) rows0).take req.limit
    ⟨label,
     sorted.map (fun r =>
       { geo_id := r.geo_id
       , name := tigerName db r.geo_id
       , value := r.estimate
       , unit := "count"
       , national_percentile := some r.national_percentile }),
     (singleRowsNoBand db m req.population_group req.summary_level req.state_fips).length⟩

/-- A small concrete database used to instantiate the theorems. -/
def dbW : DB :=
  { tiger :=
    [ { geo_id := "0400000US06", name := "California", geom := [(-119, 37)] }
    , { geo_id := "0500000US06001", name := "Alameda County, California", geom := [(-122, 37)] }
    , { geo_id := "1400000US06001400100", name := "Census Tract 4001", geom := [(-122, 37)] }
    , { geo_id := "860Z200US90210", name := "Unknown", geom := [] } ]
  , acs :=
    [ { uid := "A", geo_id := "0500000US06001", estimate := 30, summary_level := "050",
        state_fips := "06", national_percentile := 1/2 }
    , { uid := "B", geo_id := "0500000US06001", estimate := 20, summary_level := "050",
        state_fips := "06", national_percentile := 3/5 }
    , { uid := "C", geo_id := "0500000US06001", estimate := 100, summary_level := "050",
        state_fips := "06", national_percentile := 9/10 }
    , { uid := "A", geo_id := "0400000US06", estimate := 300, summary_level := "040",
        state_fips := "06", national_percentile := 4/5 } ]
  , table_metadata :=
    [ { unique_id := "A", table_id := "B01001", title := "B01001 Sex by Age", label := "Total" } ]
  , geo_lookup :=
    [ { geo_id := "1400000US06001400100", title := "B01001 Sex by Age",
        universeCol := "Total population", labels_data := "json" } ] }

/-- A ranking request with the source's default parameter values. -/
def reqDefault : RankReq :=
  { metric_id := []
  , denominator_id := none
  , order := "desc"
  , percentile_min := 0
  , percentile_max := 1
  , summary_level := none
  , state_fips := none
  , population_group := some "0000"
  , min_population := 10000
  , limit := 10 }

/-- A concrete rate-branch request. -/
def reqC1 : RankReq :=
  { reqDefault with
    metric_id := ["A", "B"], denominator_id := some ["C"],
    min_population := 50, summary_level := some "050", state_fips := some "06" }

/-- The row the rate-branch request produces on `dbW`. -/
def rowC1 : RankRow :=
  { geo_id := "0500000US06001", name := "Alameda County, California", value := 50,
    unit := "percent", national_percentile := none }

/-- A concrete single-metric request. -/
def reqC6 : RankReq := { reqDefault with metric_id := ["A"] }

/-- The first row the single-metric request produces on `dbW`. -/
def rowC6 : RankRow :=
  { geo_id := "0400000US06", name := "California", value := 300,
    unit := "count", national_percentile := some (4/5) }

/-- The record `lookupLocation` returns for a point inside both the tract and
its parent county of `dbW`. -/
def outC7 : LookupResult :=
  { geo_id := "1400000US06001400100", name := "Census Tract 4001", summary_level := "140"
  , data := [ { table_id := "B01001", title := "B01001 Sex by Age",
                universeCol := "Total population", labels_data := "json" } ] }

/-- A catalog on which the `searchLocations` and `resolveLocation` orderings
disagree: a ZIP-equivalent area with a long name and a tract with a short one. -/
def db4 : DB :=
  { tiger :=
    [ { geo_id := "8600000US1", name := "aaaa", geom := [] }
    , { geo_id := "1400000US1", name := "aa", geom := [] } ]
  , acs := [], table_metadata := [], geo_lookup := [] }

/-- A database with 101 distinct metric-catalog rows for one area, enough to
hit the `LIMIT 100` of `lookupLocation`'s data query. -/
def db8 : DB :=
  { tiger := [ { geo_id := "0400000US06", name := "California", geom := [(0, 0)] } ]
  , acs := [], table_metadata := []
  , geo_lookup := (List.range 101).map (fun i =>
      { geo_id := "0400000US06", title := "T" ++ toString i,
        universeCol := "U", labels_data := "L" }) }

/-! Helper lemmas about the list and string utilities. -/

theorem mem_dedupFirst [DecidableEq α] {a : α} : ∀ {l : List α}, a ∈ dedupFirst l ↔ a ∈ l := by
  intro l
  induction l with
  | nil => simp [dedupFirst]
  | cons b bs ih =>
    simp only [dedupFirst, List.mem_cons, List.mem_filter, decide_eq_true_eq]
    constructor
    · rintro (rfl | ⟨h, _⟩)
      · exact Or.inl rfl
      · exact Or.inr (ih.mp h)
    · rintro (rfl | h)
      · exact Or.inl rfl
      · by_cases hab : a = b
        · exact Or.inl hab
        · exact Or.inr ⟨ih.mpr h, hab⟩

theorem nodup_dedupFirst [DecidableEq α] : ∀ (l : List α), (dedupFirst l).Nodup := by
  intro l
  induction l with
  | nil => simp [dedupFirst]
  | cons b bs ih =>
    refine List.Pairwise.cons ?_ (ih.filter _)
    intro x hx
    have := (List.mem_filter.mp hx).2
    simp only [decide_eq_true_eq] at this
    exact fun hbx => this hbx.symm

theorem charListLe_total : ∀ a b : List Char, charListLe a b = true ∨ charListLe b a = true := by
  intro a
  induction a with
  | nil => intro b; exact Or.inl rfl
  | cons x xs ih =>
    intro b
    cases b with
    | nil => exact Or.inr rfl
    | cons y ys =>
      simp only [charListLe]
      rcases Nat.lt_trichotomy x.toNat y.toNat with h | h | h
      · left; simp [h]
      · have h1 : ¬ x.toNat < y.toNat := by omega
        have h2 : ¬ y.toNat < x.toNat := by omega
        simpa [h1, h2] using ih ys
      · right; simp [h]

theorem charListLe_trans :
    ∀ a b c : List Char, charListLe a b = true → charListLe b c = true → charListLe a c = true := by
  intro a
  induction a with
  | nil => intro b c _ _; rfl
  | cons x xs ih =>
    intro b c hab hbc
    cases b with
    | nil => simp [charListLe] at hab
    | cons y ys =>
      cases c with
      | nil => simp [charListLe] at hbc
      | cons z zs =>
        simp only [charListLe] at hab hbc ⊢
        by_cases hxy : x.toNat < y.toNat <;> by_cases hyz : y.toNat < z.toNat
        · simp [show x.toNat < z.toNat by omega]
        · simp only [hyz, if_false] at hbc
          by_cases hzy : z.toNat < y.toNat
          · simp [hzy] at hbc
          · simp [show x.toNat < z.toNat by omega]
        · simp only [hxy, if_false] at hab
          by_cases hyx : y.toNat < x.toNat
          · simp [hyx] at hab
          · simp [show x.toNat < z.toNat by omega]
        · simp only [hxy, if_false] at hab
          by_cases hyx : y.toNat < x.toNat
          · simp [hyx] at hab
          · simp only [hyz, if_false] at hbc
            by_cases hzy : z.toNat < y.toNat
            · simp [hzy] at hbc
            · simp only [hyx, if_false] at hab
              simp only [hzy, if_false] at hbc
              have h1 : ¬ x.toNat < z.toNat := by omega
              have h2 : ¬ z.toNat < x.toNat := by omega
              simp only [h1, h2, if_false]
              exact ih ys zs hab hbc

theorem head_mem_of_listBeginsWith [DecidableEq α] {n : α} {ns hay : List α}
    (h : listBeginsWith hay (n :: ns) = true) : n ∈ hay := by
  cases hay with
  | nil => simp [listBeginsWith] at h
  | cons a t =>
    simp only [listBeginsWith, Bool.and_eq_true, decide_eq_true_eq] at h
    exact h.1 ▸ List.mem_cons_self a t

theorem head_mem_of_listHasInfix [DecidableEq α] {n : α} {ns : List α} :
    ∀ {hay : List α}, listHasInfix hay (n :: ns) = true → n ∈ hay := by
  intro hay
  induction hay with
  | nil => intro h; simp [listHasInfix, List.isEmpty] at h
  | cons a t ih =>
    intro h
    simp only [listHasInfix, Bool.or_eq_true] at h
    rcases h with h | h
    · exact head_mem_of_listBeginsWith h
    · exact List.mem_cons_of_mem a (ih h)

theorem groupSeg_of_canonRegex {s : String} (hwf : wellFormedKey s = true)
    (hcr : canonRegex s = true) : groupSeg s = "0000" := by
  rcases hds : s.data with _ | ⟨a, _ | ⟨b, _ | ⟨c, _ | ⟨g1, _ | ⟨g2, _ | ⟨g3, _ | ⟨g4, _ | ⟨u, _ | ⟨s9, ds⟩⟩⟩⟩⟩⟩⟩⟩⟩ <;>
      simp only [wellFormedKey, hds] at hwf <;>
    try exact absurd hwf (by decide)
  simp only [Bool.and_eq_true, decide_eq_true_eq] at hwf
  obtain ⟨⟨⟨⟨⟨⟨-, -⟩, -⟩, rfl⟩, rfl⟩, -⟩, hdig⟩ := hwf
  simp only [canonRegex, hds, Bool.and_eq_true, List.any_eq_true, List.mem_range] at hcr
  obtain ⟨-, i, -, htake, htail⟩ := hcr
  rcases i with _ | _ | _ | _ | n
  · simp only [List.drop_succ_cons, List.drop_zero, canonTail, Bool.and_eq_true] at htail
    have hall := htail.2
    rw [List.all_eq_true] at hall
    have := hall 'U' (by simp)
    simp [Char.isDigit] at this
  · simp only [List.drop_succ_cons, List.drop_zero, canonTail, Bool.and_eq_true] at htail
    have hall := htail.2
    rw [List.all_eq_true] at hall
    have := hall 'U' (by simp)
    simp [Char.isDigit] at this
  · simp only [List.drop_succ_cons, List.drop_zero, canonTail,
      Bool.and_eq_true, decide_eq_true_eq] at htail
    exact absurd htail.1.1.2 (by decide)
  · have ht4 : ((g1 :: g2 :: g3 :: g4 :: 'U' :: 'S' :: ds).take (3 + 1))
        = [g1, g2, g3, g4] := rfl
    rw [ht4, List.all_eq_true] at htake
    have h1 : g1 = '0' := by simpa using htake g1 (by simp)
    have h2 : g2 = '0' := by simpa using htake g2 (by simp)
    have h3 : g3 = '0' := by simpa using htake g3 (by simp)
    have h4 : g4 = '0' := by simpa using htake g4 (by simp)
    have hseg : (s.data.drop 3).take 4 = ['0', '0', '0', '0'] := by
      rw [hds, h1, h2, h3, h4]; rfl
    unfold groupSeg
    rw [hseg]
  · have hpre : ((g1 :: g2 :: g3 :: g4 :: 'U' :: 'S' :: ds).take 5)
        <+: ((g1 :: g2 :: g3 :: g4 :: 'U' :: 'S' :: ds).take (n + 4 + 1)) :=
      List.take_prefix_take_left _ (by omega)
    have hU : 'U' ∈ (g1 :: g2 :: g3 :: g4 :: 'U' :: 'S' :: ds).take (n + 4 + 1) := by
      apply hpre.subset
      show 'U' ∈ (g1 :: g2 :: g3 :: g4 :: 'U' :: 'S' :: ds).take 5
      simp [List.take]
    rw [List.all_eq_true] at htake
    have := htake 'U' hU
    simp at this

/-! Lemmas relating the level priorities of the two name-search orderings. -/

theorem resolveCase_le_four (g : String) : resolveCase g ≤ 4 := by
  unfold resolveCase
  split <;> try omega
  split <;> try omega
  split <;> omega

theorem searchCase_eq_of_le_three {g : String} (h : resolveCase g ≤ 3) :
    searchCase g = resolveCase g := by
  unfold searchCase resolveCase at *
  by_cases h1 : startsWithStr g "040" = true
  · simp [h1]
  · by_cases h2 : startsWithStr g "310" = true
    · simp [h1, h2]
    · by_cases h3 : startsWithStr g "050" = true
      · simp [h1, h2, h3]
      · simp [h1, h2, h3] at h

theorem searchCase_ge_of_eq_four {g : String} (h : resolveCase g = 4) :
    4 ≤ searchCase g := by
  unfold resolveCase at h
  unfold searchCase
  by_cases h1 : startsWithStr g "040" = true
  · simp [h1] at h
  · by_cases h2 : startsWithStr g "310" = true
    · simp [h1, h2] at h
    · by_cases h3 : startsWithStr g "050" = true
      · simp [h1, h2, h3] at h
      · by_cases h4 : startsWithStr g "860" = true
        · simp [h1, h2, h3, h4]
        · by_cases h5 : startsWithStr g "140" = true
          · simp [h1, h2, h3, h4, h5]
          · by_cases h6 : startsWithStr g "150" = true
            · simp [h1, h2, h3, h4, h5, h6]
            · simp [h1, h2, h3, h4, h5, h6]

theorem searchCase_mono {a b : String} (h : resolveCase a < resolveCase b) :
    searchCase a < searchCase b := by
  have hb4 := resolveCase_le_four b
  rcases Nat.lt_or_ge (resolveCase b) 4 with hb | hb
  · have hb3 : resolveCase b ≤ 3 := by omega
    have ha3 : resolveCase a ≤ 3 := by omega
    rw [searchCase_eq_of_le_three ha3, searchCase_eq_of_le_three hb3]
    exact h
  · have hbeq : resolveCase b = 4 := by omega
    have hsb := searchCase_ge_of_eq_four hbeq
    have ha3 : resolveCase a ≤ 3 := by omega
    rw [searchCase_eq_of_le_three ha3]
    omega

/-- The grouped sum of the rate branch equals the claims' direct per-key sum
over the observation table. -/
theorem gSum_obsWithUidIn (db : DB) (ids : List String) (k : String) :
    gSum (obsWithUidIn db ids) k = sumEst db ids k := by
  unfold gSum obsWithUidIn sumEst
  rw [List.filter_filter]
  congr 1
  congr 1
  exact List.filter_congr fun x _ => Bool.and_comm _ _

theorem not_containsUS_of_digits {s : String} (h : s.data.all Char.isDigit = true) :
    containsStr s "US" = false := by
  by_contra hc
  rw [Bool.not_eq_false] at hc
  have hc' : listHasInfix s.data ('U' :: ['S']) = true := hc
  have hU : 'U' ∈ s.data := head_mem_of_listHasInfix hc'
  rw [List.all_eq_true] at h
  have := h 'U' hU
  simp [Char.isDigit] at this

/-- C3: for a trimmed five-digit input whose synthesized ZIP-equivalent key
`860Z200US` + digits exists in the geographic catalog, `resolveLocation`
returns exactly that key with the original digits as the display name. -/
theorem C3_zip_shorthand (db : DB) (input : String) (lvl : Option String)
    (h5 : isFiveDigits (trimStr input) = true)
    (hex : exactRows db ("860Z200US" ++ trimStr input) ≠ []) :
    resolveLocation db input lvl =
      some ("860Z200US" ++ trimStr input, trimStr input) := by
  have hdig : (trimStr input).data.all Char.isDigit = true := by
    unfold isFiveDigits at h5
    rw [Bool.and_eq_true] at h5
    exact h5.2
  have hUS : containsStr (trimStr input) "US" = false := not_containsUS_of_digits hdig
  obtain ⟨r, rest, hcons⟩ := List.exists_cons_of_ne_nil hex
  simp [resolveLocation, hUS, h5, hcons]

/-- Auxiliary equality for C9: a `[0, 1]` percentile band filters no
observation with a percentile inside the unit interval. -/
theorem singleFiltered_noBand (db : DB) (m : String) (pg sl sf : Option String)
    (hinv : ∀ r ∈ db.acs, 0 ≤ r.national_percentile ∧ r.national_percentile ≤ 1) :
    singleFilteredRows db m 0 1 pg sl sf = singleRowsNoBand db m pg sl sf := by
  unfold singleFilteredRows singleRowsNoBand
  apply List.filter_congr
  intro r hr
  have h1 : decide ((0 : Rat) ≤ r.national_percentile) = true := decide_eq_true (hinv r hr).1
  have h2 : decide (r.national_percentile ≤ (1 : Rat)) = true := decide_eq_true (hinv r hr).2
  rw [h1, h2]
  simp

/-- C9: under the catalog invariant that national percentiles lie in the unit
interval, a single-metric no-denominator request with the band `[0, 1]`
returns exactly what the same request with the percentile filter removed
returns. -/
theorem C9_trivial_band (db : DB) (req : RankReq) (m : String)
    (hm : req.metric_id = [m]) (hd : req.denominator_id = none)
    (hmin : req.percentile_min = 0) (hmax : req.percentile_max = 1)
    (hinv : ∀ r ∈ db.acs, 0 ≤ r.national_percentile ∧ r.national_percentile ≤ 1) :
    rankAreasByMetric db req = rankSingleNoBand db req := by
  have hfil := singleFiltered_noBand db m req.population_group req.summary_level
    req.state_fips hinv
  simp [rankAreasByMetric, rankSingleNoBand, hm, hd, hmin, hmax, singleBranch, hfil]

/-- C10: the rate branch and the compound-sum branch ignore the percentile
band entirely: two requests differing only in the band produce identical
rows and total counts. -/
theorem C10_percentile_band_ignored (db : DB) (req : RankReq) (a₁ b₁ a₂ b₂ : Rat)
    (h : req.denominator_id ≠ none ∨ 1 < req.metric_id.length) :
    rankAreasByMetric db { req with percentile_min := a₁, percentile_max := b₁ }
      = rankAreasByMetric db { req with percentile_min := a₂, percentile_max := b₂ } := by
  cases hd : req.denominator_id with
  | some dIds => simp [rankAreasByMetric, hd]
  | none =>
    have hlen : 1 < req.metric_id.length := by
      rcases h with h | h
      · exact absurd hd h
      · exact h
    simp [rankAreasByMetric, hd, hlen]

/-- C1: in the rate branch, every returned row's value is
`round(numeratorSum / denominatorSum * 100, 2)` for its key, and only keys
passing the minimum-population, population-group, level and state filters
appear. -/
theorem C1_rate_value (db : DB) (req : RankReq) (dIds : List String)
    (hden : req.denominator_id = some dIds) :
    ∀ row ∈ (rankAreasByMetric db req).results,
      row.value = round2 (sumEst db req.metric_id row.geo_id / sumEst db dIds row.geo_id * 100)
      ∧ req.min_population ≤ sumEst db dIds row.geo_id
      ∧ (∀ pg, req.population_group = some pg → groupSeg row.geo_id = pg)
      ∧ (∀ l, req.summary_level = some l → startsWithStr row.geo_id l = true)
      ∧ (∀ f, req.state_fips = some f → containsStr row.geo_id ("US" ++ f) = true) := by
  intro row hrow
  simp only [rankAreasByMetric, hden, rateBranch] at hrow
  have h1 := List.take_subset _ _ hrow
  rw [List.mem_insertionSort] at h1
  obtain ⟨k, hk, rfl⟩ := List.mem_map.mp h1
  unfold rateJoinKeys at hk
  rw [List.mem_filter] at hk
  obtain ⟨-, hpred⟩ := hk
  simp only [Bool.and_eq_true, decide_eq_true_eq] at hpred
  obtain ⟨⟨⟨⟨-, hmin⟩, hpg⟩, hlvl⟩, hstate⟩ := hpred
  simp only [rateRow]
  refine ⟨?_, ?_, ?_, ?_, ?_⟩
  · rw [gSum_obsWithUidIn, gSum_obsWithUidIn]
    exact congrArg round2 (by ring)
  · rw [← gSum_obsWithUidIn]
    exact hmin
  · intro pg hpg'
    rw [hpg'] at hpg
    simpa [popGroupOk] using hpg
  · intro l hl'
    rw [hl'] at hlvl
    simpa [likeLevelOk] using hlvl
  · intro f hf'
    rw [hf'] at hstate
    simpa [likeStateOk] using hstate

/-- C6: a denominator forces `unit = "percent"` with no percentile; a
compound sum forces `unit = "count"` with no percentile; the single-metric
branch reports `unit = "count"` and always carries a percentile. -/
theorem C6_units_percentile (db : DB) (req : RankReq) (row : RankRow)
    (hrow : row ∈ (rankAreasByMetric db req).results) :
    (req.denominator_id ≠ none → row.unit = "percent" ∧ row.national_percentile = none)
    ∧ (req.denominator_id = none → 1 < req.metric_id.length →
        row.unit = "count" ∧ row.national_percentile = none)
    ∧ (req.denominator_id = none → req.metric_id.length ≤ 1 →
        row.unit = "count" ∧ row.national_percentile ≠ none) := by
  refine ⟨?_, ?_, ?_⟩
  · intro hne
    obtain ⟨dIds, hd⟩ := Option.ne_none_iff_exists'.mp hne
    simp only [rankAreasByMetric, hd, rateBranch] at hrow
    have h1 := List.take_subset _ _ hrow
    rw [List.mem_insertionSort] at h1
    obtain ⟨k, -, rfl⟩ := List.mem_map.mp h1
    exact ⟨rfl, rfl⟩
  · intro hd hlen
    simp only [rankAreasByMetric, hd, hlen, if_true, sumBranch] at hrow
    have h1 := List.take_subset _ _ hrow
    rw [List.mem_insertionSort] at h1
    obtain ⟨k, -, rfl⟩ := List.mem_map.mp h1
    exact ⟨rfl, rfl⟩
  · intro hd hlen
    cases hm : req.metric_id with
    | nil => simp [rankAreasByMetric, hd, hm] at hrow
    | cons m rest =>
      rw [hm] at hlen
      have hlen'' : ¬ ((m :: rest).length > 1) := by omega
      simp only [rankAreasByMetric, hd, hm, hlen'', if_false, singleBranch] at hrow
      obtain ⟨r, -, rfl⟩ := List.mem_map.mp hrow
      exact ⟨rfl, by simp⟩

/-- Auxiliary equality for C2: each branch's total match count is the length
of the corresponding no-limit filtered key list. -/
theorem rank_total_eq (db : DB) (req : RankReq) :
    (rankAreasByMetric db req).total_matches = (rankMatchingKeys db req).length := by
  unfold rankAreasByMetric rankMatchingKeys
  cases hd : req.denominator_id with
  | some dIds => simp [rateBranch]
  | none =>
    by_cases hlen : req.metric_id.length > 1
    · simp [hlen, sumBranch]
    · simp only [hlen, if_false]
      cases hm : req.metric_id with
      | nil => simp
      | cons m rest => simp [singleBranch]

/-- C2: the reported total match count of ranking, location search and
geography listing is independent of the requested limit, and equals the
number of keys satisfying the filters with no truncation (the key lists are
duplicate-free under the catalog uniqueness invariants). -/
theorem C2_total_independent (db : DB) (req : RankReq) (l₁ l₂ : Nat) (q : String)
    (lvl : Option String) (geoLevel : String) (parent : Option String)
    (huniq : db.acs.Pairwise (fun a b => ¬(a.uid = b.uid ∧ a.geo_id = b.geo_id)))
    (htiger : (db.tiger.map (fun r => r.geo_id)).Nodup) :
    ((rankAreasByMetric db { req with limit := l₁ }).total_matches
      = (rankAreasByMetric db { req with limit := l₂ }).total_matches)
    ∧ (rankAreasByMetric db req).total_matches = (rankMatchingKeys db req).length
    ∧ (rankMatchingKeys db req).Nodup
    ∧ ((searchLocations db q lvl l₁).total_matches
        = (searchLocations db q lvl l₂).total_matches)
    ∧ (searchLocations db q lvl l₁).total_matches
        = ((searchFilter db (trimStr q) lvl).map (fun r => r.geo_id)).length
    ∧ ((searchFilter db (trimStr q) lvl).map (fun r => r.geo_id)).Nodup
    ∧ ((listGeographies db geoLevel parent l₁).total_count
        = (listGeographies db geoLevel parent l₂).total_count) := by
  refine ⟨?_, rank_total_eq db req, ?_, rfl, ?_, ?_, rfl⟩
  · rw [rank_total_eq, rank_total_eq]
    rfl
  · unfold rankMatchingKeys
    cases hd : req.denominator_id with
    | some dIds => exact (nodup_dedupFirst _).filter _
    | none =>
      by_cases hlen : req.metric_id.length > 1
      · simp only [hlen, if_true]
        exact nodup_dedupFirst _
      · simp only [hlen, if_false]
        cases hm : req.metric_id with
        | nil => exact List.nodup_nil
        | cons m rest =>
          have hsub : (singleFilteredRows db m req.percentile_min req.percentile_max
              req.population_group req.summary_level req.state_fips).Sublist db.acs :=
            List.filter_sublist _
          have hpw := List.Pairwise.sublist hsub huniq
          have huid : ∀ x ∈ singleFilteredRows db m req.percentile_min req.percentile_max
              req.population_group req.summary_level req.state_fips, x.uid = m := by
            intro x hx
            have hx2 := (List.mem_filter.mp hx).2
            simp only [Bool.and_eq_true, decide_eq_true_eq] at hx2
            exact hx2.1.1.1.1.1
          show ((singleFilteredRows db m _ _ _ _ _).map fun r => r.geo_id).Pairwise (· ≠ ·)
          rw [List.pairwise_map]
          refine hpw.imp_of_mem ?_
          intro a b ha hb hR he
          exact hR ⟨(huid a ha).trans (huid b hb).symm, he⟩
  · simp [searchLocations]
  · have hsub : ((searchFilter db (trimStr q) lvl).map fun r => r.geo_id).Sublist
        (db.tiger.map fun r => r.geo_id) :=
      (List.filter_sublist _).map _
    exact htiger.sublist hsub

/-- C5: under the data-model invariant that catalog keys are well formed,
every key returned by `listGeographies` is canonical (group segment
`"0000"`), and the returned rows are sorted by display name ascending. -/
theorem C5_canonical_sorted (db : DB) (lvl : String) (parent : Option String) (limit : Nat)
    (hwf : ∀ r ∈ db.tiger, wellFormedKey r.geo_id = true) :
    (∀ row ∈ (listGeographies db lvl parent limit).results, groupSeg row.geo_id = "0000")
    ∧ (listGeographies db lvl parent limit).results.Pairwise
        (fun a b => strLe a.name b.name = true) := by
  constructor
  · intro row hrow
    simp only [listGeographies] at hrow
    obtain ⟨r, hr, rfl⟩ := List.mem_map.mp hrow
    have hr1 := List.take_subset _ _ hr
    rw [List.mem_insertionSort] at hr1
    unfold listGeogFilter at hr1
    rw [List.mem_filter] at hr1
    obtain ⟨hmem, hpred⟩ := hr1
    simp only [Bool.and_eq_true] at hpred
    exact groupSeg_of_canonRegex (hwf r hmem) hpred.2
  · haveI : IsTotal TigerRow nameLeRel :=
      ⟨fun a b => charListLe_total a.name.data b.name.data⟩
    haveI : IsTrans TigerRow nameLeRel :=
      ⟨fun a b c hab hbc => charListLe_trans a.name.data b.name.data c.name.data hab hbc⟩
    have hsorted := List.sorted_insertionSort nameLeRel
      (listGeogFilter db (levelCodeOf lvl) parent)
    have htake : (List.take limit (List.insertionSort nameLeRel
        (listGeogFilter db (levelCodeOf lvl) parent))).Pairwise nameLeRel :=
      List.Pairwise.sublist (List.take_sublist _ _) hsorted
    simp only [listGeographies]
    rw [List.pairwise_map]
    exact htake

/-- C7: `lookupLocation` returns no record exactly when no area contains the
point, and a returned record comes from a containing area of minimal
specificity rank (block group before tract before ZIP before county before
metro before state before anything else). -/
theorem C7_most_specific (db : DB) (lat lon : Rat) (tables : Option (List String)) :
    (lookupLocation db lat lon tables = none ↔ containingRows db lat lon = [])
    ∧ (∀ out, lookupLocation db lat lon tables = some out →
        (∃ r ∈ containingRows db lat lon, r.geo_id = out.geo_id ∧ r.name = out.name)
        ∧ ∀ r ∈ containingRows db lat lon, lookupCase out.geo_id ≤ lookupCase r.geo_id) := by
  haveI : IsTotal TigerRow lookupRel := ⟨fun a b => Nat.le_total _ _⟩
  haveI : IsTrans TigerRow lookupRel := ⟨fun a b c => Nat.le_trans⟩
  have hperm := List.perm_insertionSort lookupRel (containingRows db lat lon)
  have hsorted := List.sorted_insertionSort lookupRel (containingRows db lat lon)
  unfold lookupLocation
  cases hs : List.insertionSort lookupRel (containingRows db lat lon) with
  | nil =>
    rw [hs] at hperm
    have hnil : containingRows db lat lon = [] := hperm.symm.eq_nil
    exact ⟨⟨fun _ => hnil, fun _ => rfl⟩, fun out hout => Option.noConfusion hout⟩
  | cons geo rest =>
    rw [hs] at hperm hsorted
    constructor
    · constructor
      · intro h
        exact Option.noConfusion h
      · intro hcand
        rw [hcand] at hperm
        exact absurd hperm.eq_nil (List.cons_ne_nil _ _)
    · intro out hout
      rw [Option.some.injEq] at hout
      subst hout
      constructor
      · exact ⟨geo, hperm.subset (List.mem_cons_self _ _), rfl, rfl⟩
      · intro r hr
        have hr' : r ∈ geo :: rest := hperm.mem_iff.mpr hr
        cases List.mem_cons.mp hr' with
        | inl h => exact h ▸ Nat.le_refl _
        | inr h => exact (List.pairwise_cons.mp hsorted).1 r h

/-- C8 (amended): when the selected area has at most 100 distinct
metric-catalog rows passing the table filter, every passing row appears in
the returned data; the source query truncates at `LIMIT 100` otherwise. -/
theorem C8_lookup_data (db : DB) (lat lon : Rat) (tables : Option (List String))
    (out : LookupResult) (hout : lookupLocation db lat lon tables = some out)
    (hsmall : (dedupFirst ((filteredLookupRows db out.geo_id tables).map
        (fun r => (r.title, r.universeCol, r.labels_data)))).length ≤ 100) :
    ∀ r ∈ filteredLookupRows db out.geo_id tables,
      ({ table_id := firstWord r.title, title := r.title, universeCol := r.universeCol,
         labels_data := r.labels_data } : LookupDataRow) ∈ out.data := by
  unfold lookupLocation at hout
  cases hs : List.insertionSort lookupRel (containingRows db lat lon) with
  | nil =>
    rw [hs] at hout
    exact Option.noConfusion hout
  | cons geo rest =>
    rw [hs] at hout
    rw [Option.some.injEq] at hout
    subst hout
    intro r hr
    show _ ∈ lookupDataOf db geo.geo_id tables
    unfold lookupDataOf
    rw [List.take_of_length_le hsmall]
    exact List.mem_map.mpr ⟨(r.title, r.universeCol, r.labels_data),
      mem_dedupFirst.mpr (List.mem_map.mpr ⟨r, hr, rfl⟩), rfl⟩

theorem C4_ne_case {r₁ r₂ : TigerRow}
    (hne : resolveCase r₁.geo_id ≠ resolveCase r₂.geo_id) :
    searchBeforeB r₁ r₂ = resolveBeforeB r₁ r₂ := by
  rcases Nat.lt_or_gt_of_ne hne with hlt | hgt
  · have hs := searchCase_mono hlt
    simp [searchBeforeB, resolveBeforeB, searchLeB, resolveLeB, hlt, hs,
      Nat.lt_asymm hlt, Nat.lt_asymm hs, (Nat.ne_of_lt hlt).symm, (Nat.ne_of_lt hs).symm]
  · have hs := searchCase_mono hgt
    simp [searchBeforeB, resolveBeforeB, searchLeB, resolveLeB,
      Nat.lt_asymm hgt, Nat.lt_asymm hs, (Nat.ne_of_lt hgt).symm, (Nat.ne_of_lt hs).symm]

/-- C4 (amended): the `searchLocations` ordering refines the
`resolveLocation` step-3 ordering with a finer level priority and a final
name tie-break; the two strict orderings agree on every pair whose coarse
priorities differ, and on every pair of state/metro/county candidates whose
display names have different lengths, but may disagree otherwise (e.g. a
ZIP-equivalent versus a tract). -/
theorem C4_ordering_agreement (r₁ r₂ : TigerRow)
    (h : resolveCase r₁.geo_id ≠ resolveCase r₂.geo_id ∨
         (resolveCase r₁.geo_id ≤ 3 ∧ resolveCase r₂.geo_id ≤ 3 ∧
          r₁.name.length ≠ r₂.name.length)) :
    searchBeforeB r₁ r₂ = resolveBeforeB r₁ r₂ := by
  rcases h with hne | ⟨h₁, h₂, h₃⟩
  · exact C4_ne_case hne
  · rcases eq_or_ne (resolveCase r₁.geo_id) (resolveCase r₂.geo_id) with he | hne
    · have hs₁ := searchCase_eq_of_le_three h₁
      have hs₂ := searchCase_eq_of_le_three h₂
      have hse : searchCase r₁.geo_id = searchCase r₂.geo_id := by rw [hs₁, hs₂, he]
      rcases Nat.lt_or_gt_of_ne h₃ with hl | hl
      · simp [searchBeforeB, resolveBeforeB, searchLeB, resolveLeB, he, hse, hl,
          Nat.lt_irrefl, Nat.lt_asymm hl, (Nat.ne_of_lt hl).symm,
          Nat.le_of_lt hl, Nat.not_le_of_gt hl]
      · simp [searchBeforeB, resolveBeforeB, searchLeB, resolveLeB, he, hse,
          Nat.lt_irrefl, Nat.lt_asymm hl, (Nat.ne_of_lt hl).symm, Nat.ne_of_lt hl,
          Nat.le_of_lt hl, Nat.not_le_of_gt hl]
    · exact C4_ne_case hne

/-- C4 counterexample: on `db4` with query `"a"`, `searchLocations` ranks the
ZIP-equivalent area first while `resolveLocation`'s name-search step returns
the tract, so the two orderings are not identical as claimed. -/
theorem C4_counterexample :
    (searchLocations db4 "a" none 20).results.map (fun r => r.geo_id)
      = ["8600000US1", "1400000US1"]
    ∧ resolveLocation db4 "a" none = some ("1400000US1", "aa") := by
  exact ⟨by decide, by decide⟩

set_option maxRecDepth 100000 in
/-- C8 counterexample: on `db8` the catalog row titled `T100` passes the
(absent) table filter for the selected area, but the returned data, truncated
to 100 rows, does not contain it. -/
theorem C8_counterexample :
    (lookupLocation db8 0 0 none).map
        (fun o => o.data.any (fun d => decide (d.title = "T100"))) = some false
    ∧ (filteredLookupRows db8 "0400000US06" none).any
        (fun r => decide (r.title = "T100")) = true := by
  exact ⟨by decide, by decide⟩

unseal Rat.add Rat.mul Rat.inv in
/-- Witness for C1 at a concrete database and rate request. -/
theorem C1_witness :
    rowC1.value = round2 (sumEst dbW ["A", "B"] rowC1.geo_id /
        sumEst dbW ["C"] rowC1.geo_id * 100)
    ∧ reqC1.min_population ≤ sumEst dbW ["C"] rowC1.geo_id
    ∧ groupSeg rowC1.geo_id = "0000"
    ∧ startsWithStr rowC1.geo_id "050" = true
    ∧ containsStr rowC1.geo_id ("US" ++ "06") = true := by
  have h := C1_rate_value dbW reqC1 ["C"] rfl rowC1 (by decide)
  exact ⟨h.1, h.2.1, h.2.2.1 "0000" rfl, h.2.2.2.1 "050" rfl, h.2.2.2.2 "06" rfl⟩

unseal Rat.add Rat.mul Rat.inv in
/-- Witness for C2 at a concrete database, request and two limits. -/
theorem C2_witness :
    ((rankAreasByMetric dbW { reqC1 with limit := 1 }).total_matches
      = (rankAreasByMetric dbW { reqC1 with limit := 5 }).total_matches)
    ∧ (rankAreasByMetric dbW reqC1).total_matches = (rankMatchingKeys dbW reqC1).length
    ∧ (rankMatchingKeys dbW reqC1).Nodup
    ∧ ((searchLocations dbW "Cali" none 1).total_matches
        = (searchLocations dbW "Cali" none 5).total_matches)
    ∧ (searchLocations dbW "Cali" none 1).total_matches
        = ((searchFilter dbW (trimStr "Cali") none).map (fun r => r.geo_id)).length
    ∧ ((searchFilter dbW (trimStr "Cali") none).map (fun r => r.geo_id)).Nodup
    ∧ ((listGeographies dbW "040" none 1).total_count
        = (listGeographies dbW "040" none 5).total_count) :=
  C2_total_independent dbW reqC1 1 5 "Cali" none "040" none (by decide) (by decide)

/-- Witness for C3 at a concrete five-digit input with surrounding blanks. -/
theorem C3_witness :
    resolveLocation dbW " 90210 " none
      = some ("860Z200US" ++ trimStr " 90210 ", trimStr " 90210 ") :=
  C3_zip_shorthand dbW " 90210 " none (by decide) (by decide)

/-- Witness for C4 (amended) on a state row and a county row. -/
theorem C4_witness :
    searchBeforeB { geo_id := "0400000US06", name := "California", geom := [] }
        { geo_id := "0500000US06001", name := "Alameda County, California", geom := [] }
      = resolveBeforeB { geo_id := "0400000US06", name := "California", geom := [] }
        { geo_id := "0500000US06001", name := "Alameda County, California", geom := [] } :=
  C4_ordering_agreement _ _ (Or.inl (by decide))

/-- Witness for C5 on the concrete catalog. -/
theorem C5_witness :
    groupSeg ({ geo_id := "0400000US06", name := "California" } : GeoRowOut).geo_id
      = "0000" :=
  (C5_canonical_sorted dbW "state" none 10 (by decide)).1 _ (by decide)

unseal Rat.add Rat.mul Rat.inv in
/-- Witness for C6 in the single-metric branch. -/
theorem C6_witness : rowC6.unit = "count" ∧ rowC6.national_percentile ≠ none := by
  have h := C6_units_percentile dbW reqC6 rowC6 (by decide)
  exact h.2.2 rfl (by decide)

unseal Rat.add Rat.mul Rat.inv in
/-- Witness for C7 at a point inside both a tract and its parent county. -/
theorem C7_witness :
    lookupCase outC7.geo_id ≤ lookupCase "0500000US06001" := by
  have h := (C7_most_specific dbW 37 (-122) none).2 outC7 (by decide)
  exact h.2 (⟨"0500000US06001", "Alameda County, California", [(-122, 37)]⟩ : TigerRow)
    (by decide)

unseal Rat.add Rat.mul Rat.inv in
/-- Witness for C8 (amended) on the concrete catalog. -/
theorem C8_witness :
    ({ table_id := "B01001", title := "B01001 Sex by Age",
       universeCol := "Total population", labels_data := "json" } : LookupDataRow)
      ∈ outC7.data := by
  have h := C8_lookup_data dbW 37 (-122) none outC7 (by decide) (by decide)
  exact h (⟨"1400000US06001400100", "B01001 Sex by Age", "Total population", "json"⟩ :
    GeoLookupRow) (by decide)

unseal Rat.add Rat.mul Rat.inv in
/-- Witness for C9 on the concrete catalog, whose percentiles all lie in the
unit interval. -/
theorem C9_witness : rankAreasByMetric dbW reqC6 = rankSingleNoBand dbW reqC6 :=
  C9_trivial_band dbW reqC6 "A" rfl rfl rfl rfl (by decide)

unseal Rat.add Rat.mul Rat.inv in
/-- Witness for C10 with two different percentile bands on a rate request. -/
theorem C10_witness :
    rankAreasByMetric dbW { reqC1 with percentile_min := 0, percentile_max := 1 }
      = rankAreasByMetric dbW { reqC1 with percentile_min := 1/4, percentile_max := 3/4 } :=
  C10_percentile_band_ignored dbW reqC1 0 1 (1/4) (3/4) (Or.inl (by decide))

end Census
